import Mathlib

/-!
Shallow embedding of the starcli layout/rendering engine
(source file: src/starcli/layouts.py) together with proofs
settling the specification claims about it.

Python dictionaries holding repository metadata are embedded as a `Repo`
structure; a count field can hold either an integer or a string (the code
compares it against the string "-1"), so counts are embedded as `PyVal`.
Dates are embedded as integer day ordinals (Python `datetime.date`
ordinals); timedeltas as microsecond counts (`datetime.timedelta`
resolution), with division rounding half-to-even the way Python's
`timedelta.__truediv__` does.
-/

/-- A Python value as stored in a repository dictionary count field:
either an integer or a string.  Python `==` between an int and a str is
always `False`, which the embedding mirrors. -/
inductive PyVal where
  | int (n : Int)
  | str (s : String)
deriving DecidableEq

/-- Python inequality test `v != "-1"` between a dict value and the string
literal "-1": an int is never equal to a str. -/
def PyVal.neStr : PyVal → String → Bool
  | .int _, _ => true
  | .str t, s => t != s

/-- Python f-string rendering of a dict value. -/
def PyVal.pyStr : PyVal → String
  | .int n => toString n
  | .str s => s

/-- A repository record as consumed by the layout functions.
`language` / `description` of `none` embeds Python `None`;
`date_range` of `none` embeds an absent "date_range" key. -/
structure Repo where
  name : String
  full_name : String
  html_url : String
  description : Option String
  language : Option String
  stargazers_count : PyVal
  forks_count : PyVal
  watchers_count : PyVal
  date_range : Option String
deriving DecidableEq

/-- Python truthiness of an optional string: `None` and `""` are falsy. -/
def truthyS : Option String → Bool
  | none => false
  | some s => s != ""

/-- Embedding of `get_stats` (layouts.py lines 39-44): each of the three
count fields is rendered (value, space, glyph, space) unless it equals the
string "-1". -/
def get_stats (repo : Repo) : String :=
  (if repo.stargazers_count.neStr "-1" then repo.stargazers_count.pyStr ++ " ⭐ " else "")
    ++ (if repo.forks_count.neStr "-1" then repo.forks_count.pyStr ++ " ⎇ " else "")
    ++ (if repo.watchers_count.neStr "-1" then repo.watchers_count.pyStr ++ " 👀 " else "")

/-- The text content of the renderable block that `list_layout`'s
`render_repo` produces for one repository: the title row (title cell and
right-aligned stats cell), the language/date-range row, and the
description block. -/
structure ListBlock where
  title : String
  stats : String
  language_col : String
  date_range_col : String
  description_col : String
deriving DecidableEq

/-- Embedding of `render_repo` inside `list_layout` (layouts.py lines
52-92), capturing the strings placed in each cell.  The description block
for a falsy description is the literal markup string the code yields,
`"[i green]no description"` (an italic placeholder). -/
def list_render_repo (repo : Repo) : ListBlock :=
  { title := repo.full_name
    stats := get_stats repo
    language_col := if truthyS repo.language then repo.language.getD "" else "unknown language"
    date_range_col :=
      if truthyS repo.date_range then (repo.date_range.getD "").replace "stars" "⭐" else ""
    description_col :=
      if truthyS repo.description then (repo.description.getD "").trim
      else "[i green]no description" }

/-- Embedding of the record mutation performed by `table_layout`
(layouts.py lines 124-127): a falsy language or description is overwritten
in the caller's dictionary with the string "None".  The returned record is
the state of the caller's record after the render call. -/
def table_layout_after (repo : Repo) : Repo :=
  { repo with
    language := if truthyS repo.language then repo.language else some "None"
    description := if truthyS repo.description then repo.description else some "None" }

/-- Embedding of the record mutation performed by `grid_layout`
(layouts.py lines 157-160), identical in effect to the one in
`table_layout`. -/
def grid_layout_after (repo : Repo) : Repo :=
  { repo with
    language := if truthyS repo.language then repo.language else some "None"
    description := if truthyS repo.description then repo.description else some "None" }

/-- Does the first list start with the second one? -/
def startsWithSeg : List Char → List Char → Bool
  | _, [] => true
  | [], _ :: _ => false
  | a :: l, b :: m => a == b && startsWithSeg l m

/-- Does the first list contain the second as a contiguous segment?
Used to state token-containment facts about rendered strings. -/
def hasSegment : List Char → List Char → Bool
  | [], pat => pat.isEmpty
  | a :: l, pat => startsWithSeg (a :: l) pat || hasSegment l pat

/-- Integer division of `a` by `b` rounded to the nearest integer with
ties going to the even quotient (round-half-to-even).  This is both the
rounding Python's `timedelta / int` performs (to a whole number of
microseconds) and the rounding of an IEEE-754 mantissa to nearest-even. -/
def divRoundHalfEven (a b : Nat) : Nat :=
  let q := a / b
  let r := a % b
  if b < 2 * r then q + 1
  else if 2 * r < b then q
  else if q % 2 = 0 then q
  else q + 1

/-- Fuel-driven floor of the base-2 logarithm. -/
def natLog2Go : Nat → Nat → Nat
  | 0, _ => 0
  | fuel + 1, n => if 2 ≤ n then natLog2Go fuel (n / 2) + 1 else 0

/-- Floor of the base-2 logarithm of a natural number, adequate for every
argument below 2^64 (the fuel bounds the recursion depth only). -/
def natLog2 (n : Nat) : Nat := natLog2Go 64 n

/-- The IEEE-754 double `number / 100.0` computed by `shorten_count`,
represented exactly as a dyadic pair `(num, shift)` with value
`num / 2 ^ shift`: the exact rational `n / 100` is scaled so that its
mantissa occupies 53 bits and the mantissa is rounded half-to-even,
exactly as the hardware division rounds.  Intended for `100 ≤ n < 2^53`,
where the int-to-float conversion of `n` is itself exact. -/
def pyDiv100 (n : Nat) : Nat × Nat :=
  let e := natLog2 (n / 100)
  if e ≤ 52 then (divRoundHalfEven (n * 2 ^ (52 - e)) 100, 52 - e)
  else (divRoundHalfEven n (100 * 2 ^ (e - 52)) * 2 ^ (e - 52), 0)

/-- The intermediate `math.ceil(round(number / 100.0, 1)) * 100` of
`shorten_count` (layouts.py line 27).  Python's `round(x, 1)` rounds the
exact value of the double `x` to one decimal digit with ties to even
(modelled by `divRoundHalfEven (num * 10) (2 ^ shift)`, giving the number
of tenths); re-quantising that one-decimal value to a double never moves
it across an integer boundary at these magnitudes, so `math.ceil` of it is
the ceiling of the tenths count divided by ten. -/
def snapped (number : Nat) : Nat :=
  let d := pyDiv100 number
  let tenths := divRoundHalfEven (d.1 * 10) (2 ^ d.2)
  ((tenths + 9) / 10) * 100

/-- Embedding of `shorten_count` (layouts.py lines 21-36).  The final
branch returns `str(new_number / 1000.0) + "k"`; there `new_number` is a
multiple of 100 but not of 1000, so the quotient has exactly one nonzero
decimal digit after the point and CPython's shortest round-trip `str` of
that double prints exactly that one-decimal value. -/
def shorten_count (number : Nat) : String :=
  if number < 1000 then toString number
  else if snapped number % 1000 = 0 then (toString (snapped number)).take 1 ++ "k"
  else if snapped number < 1000 then toString number
  else toString (snapped number / 1000) ++ "." ++ toString (snapped number / 100 % 10) ++ "k"

/-- Microseconds per day, the resolution scale of Python timedeltas. -/
def dayUs : Nat := 86400000000

/-- The date `min_date + i * date_delta` computed by `graph_layout`
(layouts.py lines 213-214): the timedelta `i * date_delta` is exact in
microseconds, and Python's `date + timedelta` ignores the
seconds/microseconds part, keeping only whole days. -/
def bucket_bound (min_date : Int) (deltaUs : Nat) (i : Nat) : Int :=
  min_date + Int.ofNat (i * deltaUs / dayUs)

/-- The number of star timestamps falling in the half-open interval
`[lower_date, upper_date)` of column `i` (layouts.py line 216). -/
def bucket_count (dates : List Int) (min_date : Int) (deltaUs : Nat) (i : Nat) : Nat :=
  (dates.filter (fun x =>
    decide (bucket_bound min_date deltaUs i ≤ x) &&
      decide (x < bucket_bound min_date deltaUs (i + 1)))).length

/-- The cumulative count reached at column `i` of the star-history series:
`star_counts[0] = 0` and `star_counts[i] = star_counts[i-1] + len(star_arr)`
(layouts.py lines 211-224). -/
def cum_count (dates : List Int) (min_date : Int) (deltaUs : Nat) : Nat → Nat
  | 0 => 0
  | i + 1 => cum_count dates min_date deltaUs i + bucket_count dates min_date deltaUs (i + 1)

/-- The `star_counts` list built by `graph_layout`: seeded with `[0]`,
then one appended entry per loop iteration `i = 1 .. col_count - 1`. -/
def star_counts (dates : List Int) (min_date : Int) (deltaUs : Nat) (col_count : Nat) :
    List Nat :=
  0 :: (List.range' 1 (col_count - 1)).map (cum_count dates min_date deltaUs)

/-- The timedelta `date_delta = (max_date - min_date) / col_count`
(layouts.py line 205) in microseconds: the day span is exact in
microseconds and the division by `col_count` rounds to the nearest
microsecond, ties to even.  `min_date` is `star_dates[0]`; `max_date` is
the current date at render time, passed here as a parameter. -/
def graph_date_delta (star_dates : List Int) (max_date : Int) (col_count : Nat) : Nat :=
  divRoundHalfEven ((max_date - star_dates.headD 0).toNat * dayUs) col_count

/-- The cumulative-count series `graph_layout` passes to the plotting
primitive, for a given timestamp list, current date, and terminal column
count. -/
def graph_layout_counts (star_dates : List Int) (max_date : Int) (col_count : Nat) :
    List Nat :=
  star_counts star_dates (star_dates.headD 0) (graph_date_delta star_dates max_date col_count)
    col_count

/-- Modelled from the spec: the display width of one character as counted
by the rendering toolkit's width-aware truncation, where East-Asian wide
characters occupy two terminal columns and every other character one.
The wide ranges are the standard East-Asian Wide / Fullwidth blocks. -/
def isWideChar (c : Char) : Bool :=
  let n := c.toNat
  (0x1100 ≤ n && n ≤ 0x115F) || (0x2E80 ≤ n && n ≤ 0x303E) ||
    (0x3041 ≤ n && n ≤ 0x33FF) || (0x3400 ≤ n && n ≤ 0x4DBF) ||
    (0x4E00 ≤ n && n ≤ 0x9FFF) || (0xA000 ≤ n && n ≤ 0xA4CF) ||
    (0xAC00 ≤ n && n ≤ 0xD7A3) || (0xF900 ≤ n && n ≤ 0xFAFF) ||
    (0xFE30 ≤ n && n ≤ 0xFE4F) || (0xFF00 ≤ n && n ≤ 0xFF60) ||
    (0xFFE0 ≤ n && n ≤ 0xFFE6) || (0x20000 ≤ n && n ≤ 0x2FFFD) ||
    (0x30000 ≤ n && n ≤ 0x3FFFD)

/-- Number of terminal cells one character occupies. -/
def charCells (c : Char) : Nat := if isWideChar c then 2 else 1

/-- Number of terminal cells a character list occupies. -/
def cellsOf (l : List Char) : Nat := (l.map charCells).sum

/-- Display width of a string in terminal cells. -/
def cellLen (s : String) : Nat := cellsOf s.data

/-- Modelled from the spec: the toolkit's `set_cell_size`, which cuts or
pads a text to exactly `n` terminal cells — characters are kept while they
fit, a wide character that would straddle the cut is dropped, and the
result is padded with spaces to exactly `n` cells. -/
def setCellSize : List Char → Nat → List Char
  | [], n => List.replicate n ' '
  | c :: rest, n =>
    if charCells c ≤ n then c :: setCellSize rest (n - charCells c)
    else List.replicate n ' '

/-- Modelled from the spec: the toolkit's width-aware `truncate` with the
ellipsis overflow policy, as invoked by `grid_layout` (layouts.py line
171): when the display width exceeds `maxW`, the text is cut to
`maxW - 1` cells and the one-cell ellipsis character is appended;
otherwise the text is unchanged. -/
def truncateText (s : String) (maxW : Nat) : String :=
  if maxW < cellLen s then String.mk (setCellSize s.data (maxW - 1) ++ ['…']) else s

/-- The description-length bound of `grid_layout` (layouts.py line 146). -/
def max_desc_len : Nat := 90

/-- The description text shown on a grid card, after `grid_layout`'s
truncation call (layouts.py lines 162-171), as a function of the
already-defaulted description string. -/
def grid_description (description : String) : String :=
  truncateText description max_desc_len

lemma bucket_bound_mono (m : Int) (d : Nat) {i j : Nat} (h : i ≤ j) :
    bucket_bound m d i ≤ bucket_bound m d j := by
  unfold bucket_bound
  exact add_le_add_left (Int.ofNat_le.mpr (Nat.div_le_div_right (Nat.mul_le_mul_right d h))) m

lemma length_filter_add (l : List Int) (p q r : Int → Bool)
    (h : ∀ x, r x = (p x || q x)) (hd : ∀ x, ¬(p x = true ∧ q x = true)) :
    (l.filter r).length = (l.filter p).length + (l.filter q).length := by
  induction l with
  | nil => simp
  | cons a t ih =>
    have ha := h a
    have hda := hd a
    cases hp : p a <;> cases hq : q a
    · have hr : r a = false := by rw [ha, hp, hq]; rfl
      simp [List.filter_cons, hp, hq, hr, ih]
    · have hr : r a = true := by rw [ha, hp, hq]; rfl
      simp [List.filter_cons, hp, hq, hr, ih]
      omega
    · have hr : r a = true := by rw [ha, hp, hq]; rfl
      simp [List.filter_cons, hp, hq, hr, ih]
      omega
    · rw [hp, hq] at hda
      simp at hda

lemma cum_count_eq_window (dates : List Int) (m : Int) (d : Nat) :
    ∀ i, cum_count dates m d i =
      (dates.filter (fun x =>
        decide (bucket_bound m d 1 ≤ x) && decide (x < bucket_bound m d (i + 1)))).length := by
  intro i
  induction i with
  | zero =>
    simp only [cum_count, Nat.zero_add]
    symm
    rw [List.length_eq_zero, List.filter_eq_nil_iff]
    intro a _
    simp only [Bool.and_eq_true, decide_eq_true_eq, not_and]
    omega
  | succ i ih =>
    rw [cum_count, ih, bucket_count]
    symm
    apply length_filter_add
    · intro x
      have h1 : bucket_bound m d 1 ≤ bucket_bound m d (i + 1) :=
        bucket_bound_mono m d (by omega)
      have h2 : bucket_bound m d (i + 1) ≤ bucket_bound m d (i + 1 + 1) :=
        bucket_bound_mono m d (by omega)
      rcases le_or_lt (bucket_bound m d (i + 1)) x with hx | hx
      · have ha : bucket_bound m d 1 ≤ x := le_trans h1 hx
        simp [hx, ha, not_lt.mpr hx]
      · have hb : x < bucket_bound m d (i + 1 + 1) := lt_of_lt_of_le hx h2
        simp [hb, not_le.mpr hx]
        intro _
        exact hx
    · intro x
      simp only [Bool.and_eq_true, decide_eq_true_eq, not_and]
      omega

lemma getLast?_map_range' (f : Nat → Nat) :
    ∀ n s : Nat, ((List.range' s (n + 1)).map f).getLast? = some (f (s + n)) := by
  intro n
  induction n with
  | zero => intro s; simp
  | succ k ih =>
    intro s
    rw [List.range'_succ, List.map_cons]
    have hk : List.range' (s + 1) (k + 1) = (s + 1) :: List.range' (s + 1 + 1) k :=
      List.range'_succ _ _ _
    rw [hk, List.map_cons, List.getLast?_cons_cons, ← List.map_cons, ← hk, ih (s + 1)]
    have : s + 1 + k = s + (k + 1) := by omega
    rw [this]

lemma star_counts_eq_map (dates : List Int) (m : Int) (d : Nat) (k : Nat) :
    star_counts dates m d (k + 1) = (List.range' 0 (k + 1)).map (cum_count dates m d) := by
  rw [List.range'_succ, List.map_cons]
  rfl

lemma cum_count_le_succ (dates : List Int) (m : Int) (d : Nat) (i : Nat) :
    cum_count dates m d i ≤ cum_count dates m d (i + 1) := by
  rw [show cum_count dates m d (i + 1)
      = cum_count dates m d i + bucket_count dates m d (i + 1) from rfl]
  exact Nat.le_add_right _ _

lemma chain'_range'_of_step (R : Nat → Nat → Prop) (h : ∀ i, R i (i + 1)) :
    ∀ n s : Nat, List.Chain' R (List.range' s n) := by
  intro n
  induction n with
  | zero => intro s; simp
  | succ k ih =>
    intro s
    rw [List.range'_succ]
    cases k with
    | zero => simp
    | succ j =>
      rw [List.range'_succ]
      refine List.Chain'.cons (h s) ?_
      rw [← List.range'_succ]
      exact ih (s + 1)

lemma cellsOf_append (a b : List Char) : cellsOf (a ++ b) = cellsOf a + cellsOf b := by
  simp [cellsOf]

lemma cells_setCellSize : ∀ (l : List Char) (n : Nat), cellsOf (setCellSize l n) = n := by
  intro l
  induction l with
  | nil =>
    intro n
    have hsp : charCells ' ' = 1 := by decide
    simp [setCellSize, cellsOf, hsp]
  | cons a t ih =>
    intro n
    by_cases h : charCells a ≤ n
    · have : cellsOf (setCellSize (a :: t) n) = charCells a + cellsOf (setCellSize t (n - charCells a)) := by
        simp [setCellSize, h, cellsOf]
      rw [this, ih]
      omega
    · have hsp : charCells ' ' = 1 := by decide
      simp [setCellSize, h, cellsOf, hsp]

/-- The single record of spec property 7: full name "x/y", URL "http://x",
1500 stars, integer -1 forks and watchers, absent language and
description. -/
def repo_xy : Repo :=
  ⟨"y", "x/y", "http://x", none, none, PyVal.int 1500, PyVal.int (-1), PyVal.int (-1), none⟩

/-- C1 (counterexample): with all three counts holding the integer -1, the
stats-string helper does not return the empty string — the code compares
each count against the string "-1", an int is never equal to a str in
Python, and so every integer -1 is rendered literally. -/
theorem get_stats_int_sentinel_cex :
    get_stats ⟨"r", "o/r", "u", none, none,
        PyVal.int (-1), PyVal.int (-1), PyVal.int (-1), none⟩ ≠ "" ∧
      get_stats ⟨"r", "o/r", "u", none, none,
        PyVal.int (-1), PyVal.int (-1), PyVal.int (-1), none⟩ = "-1 ⭐ -1 ⎇ -1 👀 " := by
  decide

/-- C1 (amended): the stats-string helper omits each count field whose
value is the string "-1": with all three counts the string "-1" it
returns the empty string, and for stars 5, forks "-1", watchers 2 it
returns "5 ⭐ 2 👀 ", which contains a star-count token and a
watcher-count token but no fork glyph. -/
theorem get_stats_string_sentinel :
    get_stats ⟨"r", "o/r", "u", none, none,
        PyVal.str "-1", PyVal.str "-1", PyVal.str "-1", none⟩ = "" ∧
      get_stats ⟨"r", "o/r", "u", none, none,
        PyVal.int 5, PyVal.str "-1", PyVal.int 2, none⟩ = "5 ⭐ 2 👀 " ∧
      hasSegment (get_stats ⟨"r", "o/r", "u", none, none,
        PyVal.int 5, PyVal.str "-1", PyVal.int 2, none⟩).data "5 ⭐".data = true ∧
      hasSegment (get_stats ⟨"r", "o/r", "u", none, none,
        PyVal.int 5, PyVal.str "-1", PyVal.int 2, none⟩).data "2 👀".data = true ∧
      hasSegment (get_stats ⟨"r", "o/r", "u", none, none,
        PyVal.int 5, PyVal.str "-1", PyVal.int 2, none⟩).data "⎇".data = false := by
  decide

/-- C2 (counterexample): for the record of spec property 7, the stats cell
of the title row is "1500 ⭐ -1 ⎇ -1 👀 " and in particular contains no
shortened star count "1.5k" — `list_layout` never calls `shorten_count`,
and the integer -1 sentinels are rendered rather than omitted. -/
theorem list_layout_no_shortened_count_cex :
    hasSegment (list_render_repo repo_xy).stats.data "1.5k".data = false ∧
      (list_render_repo repo_xy).stats = "1500 ⭐ -1 ⎇ -1 👀 " := by
  decide

/-- C2 (amended): for the record of spec property 7, the list renderer
produces a title row showing "x/y" with the unshortened stats string
"1500 ⭐ -1 ⎇ -1 👀 ", a language row showing "unknown language", and a
description row showing the italic "no description" placeholder. -/
theorem list_layout_single_record :
    list_render_repo repo_xy =
      { title := "x/y", stats := "1500 ⭐ -1 ⎇ -1 👀 ",
        language_col := "unknown language", date_range_col := "",
        description_col := "[i green]no description" } := by
  decide

/-- C5: with min_date 2020-01-01 (ordinal 737425), max_date 2020-01-11
(ordinal 737435) and col_count 5, each bucket spans exactly 2 days, the
bucket-1 interval is [2020-01-03, 2020-01-05), an event dated 2020-01-03
(ordinal 737427) lies in that interval and in no other, and the loop
counts it in bucket 1 and not in bucket 2. -/
theorem graph_bucket_two_days :
    graph_date_delta [737425, 737427] 737435 5 = 2 * dayUs ∧
      bucket_bound 737425 (graph_date_delta [737425, 737427] 737435 5) 1 = 737427 ∧
      bucket_bound 737425 (graph_date_delta [737425, 737427] 737435 5) 2 = 737429 ∧
      (bucket_bound 737425 (graph_date_delta [737425, 737427] 737435 5) 1 ≤ (737427 : Int) ∧
        (737427 : Int) < bucket_bound 737425 (graph_date_delta [737425, 737427] 737435 5) 2) ∧
      ¬(bucket_bound 737425 (graph_date_delta [737425, 737427] 737435 5) 0 ≤ (737427 : Int) ∧
        (737427 : Int) < bucket_bound 737425 (graph_date_delta [737425, 737427] 737435 5) 1) ∧
      ¬(bucket_bound 737425 (graph_date_delta [737425, 737427] 737435 5) 2 ≤ (737427 : Int) ∧
        (737427 : Int) < bucket_bound 737425 (graph_date_delta [737425, 737427] 737435 5) 3) ∧
      bucket_count [737425, 737427] 737425 (graph_date_delta [737425, 737427] 737435 5) 1 = 1 ∧
      bucket_count [737425, 737427] 737425 (graph_date_delta [737425, 737427] 737435 5) 2 = 0 := by
  decide

/-- C7 (counterexample): the number-shortening helper applied to 12345
returns neither "12.3k" nor any string strictly shorter than "12345" —
Python's round(123.45, 1) yields 123.5 (the double nearest 123.45 lies
above it), math.ceil gives 124, and the result "12.4k" has length 5. -/
theorem shorten_12345_cex :
    ¬(shorten_count 12345 = "12.3k" ∨
      (shorten_count 12345).length < ("12345" : String).length) := by
  decide

/-- C7 (amended): the number-shortening helper applied to 12345 returns
"12.4k" — a string ending in "k" whose length equals (rather than is
strictly smaller than) that of "12345". -/
theorem shorten_12345_value :
    shorten_count 12345 = "12.4k" ∧
      (shorten_count 12345).data.getLast? = some 'k' ∧
      (shorten_count 12345).length = ("12345" : String).length := by
  decide

/-- C10: whenever the snapped intermediate value (round to one decimal of
the hundreds digit, then next hundred) of an input of 1000 or more is an
exact multiple of 1000, the helper returns just the leading decimal digit
of that value followed by "k", discarding the magnitude; in particular
10000 and 1000 both shorten to the same string "1k". -/
theorem shorten_multiple_of_1000 (n : Nat) (h1 : 1000 ≤ n)
    (h2 : snapped n % 1000 = 0) :
    shorten_count n = (toString (snapped n)).take 1 ++ "k" ∧
      shorten_count 10000 = "1k" ∧ shorten_count 1000 = "1k" := by
  refine ⟨?_, by decide, by decide⟩
  unfold shorten_count
  rw [if_neg (by omega), if_pos h2]

/-- C10 (witness): the hypotheses of `shorten_multiple_of_1000` hold at
n = 10000 and the conclusion follows there. -/
theorem shorten_multiple_of_1000_witness :
    (1000 ≤ 10000 ∧ snapped 10000 % 1000 = 0) ∧
      (shorten_count 10000 = (toString (snapped 10000)).take 1 ++ "k" ∧
        shorten_count 10000 = "1k" ∧ shorten_count 1000 = "1k") :=
  ⟨⟨by decide, by decide⟩, shorten_multiple_of_1000 10000 (by decide) (by decide)⟩

/-- C3 (counterexample): a single star dated day 0, rendered on day 2 in a
2-column terminal, produces the series [0, 0]: its final value 0 differs
from the total number of timestamps 1 — the loop starts at column 1, so
events inside the first span [min_date, min_date + date_delta) are never
counted. -/
theorem graph_final_total_cex :
    (graph_layout_counts [(0 : Int)] 2 2).getLast? ≠ some ([(0 : Int)].length) := by
  decide

/-- C3 (amended): for every non-empty, non-decreasing timestamp sequence
and positive column count, the final value of the cumulative series equals
the number of input timestamps in the half-open window from
`min_date + date_delta` to `min_date + col_count * date_delta`
(bounds truncated to whole days) — not the total number of timestamps:
whatever falls in the first span, including the earliest star itself, is
never counted. -/
theorem graph_final_eq_window (s : List Int) (M : Int) (c : Nat)
    (hne : s ≠ []) (hc : 0 < c) (hsorted : List.Chain' (· ≤ ·) s) :
    (graph_layout_counts s M c).getLast? =
      some ((s.filter (fun x =>
        decide (bucket_bound (s.headD 0) (graph_date_delta s M c) 1 ≤ x) &&
          decide (x < bucket_bound (s.headD 0) (graph_date_delta s M c) c))).length) := by
  obtain ⟨k, rfl⟩ : ∃ k, c = k + 1 := ⟨c - 1, by omega⟩
  unfold graph_layout_counts
  rw [star_counts_eq_map, getLast?_map_range', cum_count_eq_window]
  norm_num

/-- C3 (witness): the amended claim instantiated at the two-star history
[0, 1] rendered on day 4 with 2 columns, where the window [day 2, day 4)
holds no star and the final value is 0. -/
theorem graph_final_eq_window_witness :
    ([(0 : Int), 1] ≠ [] ∧ 0 < 2 ∧ List.Chain' (· ≤ ·) [(0 : Int), 1]) ∧
      (graph_layout_counts [(0 : Int), 1] 4 2).getLast? =
        some (([(0 : Int), 1].filter (fun x =>
          decide (bucket_bound ([(0 : Int), 1].headD 0)
              (graph_date_delta [(0 : Int), 1] 4 2) 1 ≤ x) &&
            decide (x < bucket_bound ([(0 : Int), 1].headD 0)
              (graph_date_delta [(0 : Int), 1] 4 2) 2))).length) :=
  ⟨⟨by decide, by decide, by simp⟩,
    graph_final_eq_window [0, 1] 4 2 (by decide) (by decide) (by simp)⟩

/-- C4: for every non-empty, non-decreasing timestamp sequence and
positive column count, the cumulative-count series is non-decreasing:
each entry is greater than or equal to the previous one. -/
theorem graph_counts_monotone (s : List Int) (M : Int) (c : Nat)
    (hne : s ≠ []) (hc : 0 < c) (hsorted : List.Chain' (· ≤ ·) s) :
    List.Chain' (· ≤ ·) (graph_layout_counts s M c) := by
  unfold graph_layout_counts star_counts
  rw [List.chain'_cons']
  constructor
  · intro y _
    exact Nat.zero_le y
  · rw [List.chain'_map]
    exact chain'_range'_of_step
      (fun a b => cum_count s (s.headD 0) (graph_date_delta s M c) a ≤
        cum_count s (s.headD 0) (graph_date_delta s M c) b)
      (fun i => cum_count_le_succ s (s.headD 0) (graph_date_delta s M c) i) _ _

/-- C4 (witness): the monotonicity theorem instantiated at the history
[0, 1] rendered on day 3 with 2 columns, whose series is [0, 1]. -/
theorem graph_counts_monotone_witness :
    ([(0 : Int), 1] ≠ [] ∧ 0 < 2 ∧ List.Chain' (· ≤ ·) [(0 : Int), 1]) ∧
      List.Chain' (· ≤ ·) (graph_layout_counts [(0 : Int), 1] 3 2) :=
  ⟨⟨by decide, by decide, by simp⟩,
    graph_counts_monotone [0, 1] 3 2 (by decide) (by decide) (by simp)⟩

/-- C8: for every non-empty timestamp sequence and positive column count,
the cumulative series has length exactly the terminal column count, with
entry 0 seeded at 0. -/
theorem graph_counts_length (s : List Int) (M : Int) (c : Nat)
    (hne : s ≠ []) (hc : 0 < c) :
    (graph_layout_counts s M c).length = c ∧
      (graph_layout_counts s M c).head? = some 0 := by
  unfold graph_layout_counts star_counts
  refine ⟨?_, rfl⟩
  simp only [List.length_cons, List.length_map, List.length_range']
  omega

/-- C8 (witness): the length theorem instantiated at the one-star history
[0] rendered on day 2 with 3 columns. -/
theorem graph_counts_length_witness :
    ([(0 : Int)] ≠ [] ∧ 0 < 3) ∧
      ((graph_layout_counts [(0 : Int)] 2 3).length = 3 ∧
        (graph_layout_counts [(0 : Int)] 2 3).head? = some 0) :=
  ⟨⟨by decide, by decide⟩, graph_counts_length [0] 2 3 (by decide) (by decide)⟩

/-- C6 (counterexample): a record whose language and description are
Python None is mutated by both the table renderer and the grid renderer —
after rendering, the caller's record no longer equals its original value
(the falsy fields now hold the string "None"). -/
theorem layouts_mutate_record_cex :
    table_layout_after ⟨"a", "o/a", "u", none, none,
        PyVal.int 1, PyVal.int 2, PyVal.int 3, none⟩ ≠
      ⟨"a", "o/a", "u", none, none, PyVal.int 1, PyVal.int 2, PyVal.int 3, none⟩ ∧
    grid_layout_after ⟨"a", "o/a", "u", none, none,
        PyVal.int 1, PyVal.int 2, PyVal.int 3, none⟩ ≠
      ⟨"a", "o/a", "u", none, none, PyVal.int 1, PyVal.int 2, PyVal.int 3, none⟩ := by
  decide

/-- C6 (amended): the table and grid renderers leave a record unchanged
only when its language and description are both truthy; whenever either
field alone is falsy (absent or empty) — the other field arbitrary — that
field is overwritten in place with the literal string "None" and the
caller's record no longer equals its original value. -/
theorem layouts_record_mutation (r q1 q2 : Repo)
    (h1 : truthyS r.language = true) (h2 : truthyS r.description = true)
    (h3 : truthyS q1.language = false) (h4 : truthyS q2.description = false) :
    (table_layout_after r = r ∧ grid_layout_after r = r) ∧
      ((table_layout_after q1).language = some "None" ∧
        (grid_layout_after q1).language = some "None" ∧
        table_layout_after q1 ≠ q1 ∧ grid_layout_after q1 ≠ q1) ∧
      ((table_layout_after q2).description = some "None" ∧
        (grid_layout_after q2).description = some "None" ∧
        table_layout_after q2 ≠ q2 ∧ grid_layout_after q2 ≠ q2) := by
  refine ⟨⟨?_, ?_⟩, ⟨?_, ?_, ?_, ?_⟩, ⟨?_, ?_, ?_, ?_⟩⟩
  · simp [table_layout_after, h1, h2]
  · simp [grid_layout_after, h1, h2]
  · simp [table_layout_after, h3]
  · simp [grid_layout_after, h3]
  · intro he
    have hq : q1.language = some "None" := by
      rw [← he]
      simp [table_layout_after, h3]
    rw [hq] at h3
    exact absurd h3 (by decide)
  · intro he
    have hq : q1.language = some "None" := by
      rw [← he]
      simp [grid_layout_after, h3]
    rw [hq] at h3
    exact absurd h3 (by decide)
  · simp [table_layout_after, h4]
  · simp [grid_layout_after, h4]
  · intro he
    have hq : q2.description = some "None" := by
      rw [← he]
      simp [table_layout_after, h4]
    rw [hq] at h4
    exact absurd h4 (by decide)
  · intro he
    have hq : q2.description = some "None" := by
      rw [← he]
      simp [grid_layout_after, h4]
    rw [hq] at h4
    exact absurd h4 (by decide)

/-- A record with truthy language and description. -/
def repo_full : Repo :=
  ⟨"a", "o/a", "u", some "desc", some "Python", PyVal.int 1, PyVal.int 2, PyVal.int 3, none⟩

/-- A mixed record: language absent (None) but description truthy. -/
def repo_no_lang : Repo :=
  ⟨"b", "o/b", "u", some "a CLI tool", none, PyVal.int 1, PyVal.int 2, PyVal.int 3, none⟩

/-- A mixed record: description empty but language truthy. -/
def repo_no_desc : Repo :=
  ⟨"c", "o/c", "u", some "", some "Python", PyVal.int 1, PyVal.int 2, PyVal.int 3, none⟩

/-- C6 (witness): the amended claim instantiated at a fully truthy record
and at the two mixed records — language absent with truthy description,
and empty description with truthy language — so each falsy field alone is
shown to be overwritten and to change the record. -/
theorem layouts_record_mutation_witness :
    (truthyS repo_full.language = true ∧ truthyS repo_full.description = true ∧
      truthyS repo_no_lang.language = false ∧ truthyS repo_no_desc.description = false) ∧
      ((table_layout_after repo_full = repo_full ∧ grid_layout_after repo_full = repo_full) ∧
        ((table_layout_after repo_no_lang).language = some "None" ∧
          (grid_layout_after repo_no_lang).language = some "None" ∧
          table_layout_after repo_no_lang ≠ repo_no_lang ∧
          grid_layout_after repo_no_lang ≠ repo_no_lang) ∧
        ((table_layout_after repo_no_desc).description = some "None" ∧
          (grid_layout_after repo_no_desc).description = some "None" ∧
          table_layout_after repo_no_desc ≠ repo_no_desc ∧
          grid_layout_after repo_no_desc ≠ repo_no_desc)) :=
  ⟨⟨by decide, by decide, by decide, by decide⟩,
    layouts_record_mutation repo_full repo_no_lang repo_no_desc
      (by decide) (by decide) (by decide) (by decide)⟩

/-- C9: in the grid renderer, a description of display width exactly 90 is
rendered unchanged; one of display width 91 or more is truncated to at
most 90 display-width cells and carries the ellipsis marker; and the
width is counted in display cells, not characters — 46 East-Asian wide
characters measure 92 cells and are truncated although only 46
characters long. -/
theorem grid_truncation_width (s t : String)
    (h90 : cellLen s = 90) (h91 : 91 ≤ cellLen t) :
    grid_description s = s ∧
      cellLen (grid_description t) ≤ 90 ∧
      '…' ∈ (grid_description t).data ∧
      cellLen (String.mk (List.replicate 46 '中')) = 92 ∧
      grid_description (String.mk (List.replicate 46 '中')) ≠
        String.mk (List.replicate 46 '中') := by
  refine ⟨?_, ?_, ?_, by decide, by decide⟩
  · unfold grid_description truncateText max_desc_len
    rw [if_neg (by omega)]
  · unfold grid_description truncateText max_desc_len
    rw [if_pos (by omega)]
    show cellsOf (setCellSize t.data 89 ++ ['…']) ≤ 90
    rw [cellsOf_append, cells_setCellSize]
    have h : cellsOf ['…'] = 1 := by decide
    omega
  · unfold grid_description truncateText max_desc_len
    rw [if_pos (by omega)]
    show '…' ∈ setCellSize t.data 89 ++ ['…']
    simp

/-- C9 (witness): the truncation theorem instantiated at a 90-cell ASCII
description (unchanged) and a 91-cell one (truncated with ellipsis). -/
theorem grid_truncation_width_witness :
    (cellLen (String.mk (List.replicate 90 'a')) = 90 ∧
      91 ≤ cellLen (String.mk (List.replicate 91 'a'))) ∧
      (grid_description (String.mk (List.replicate 90 'a')) =
          String.mk (List.replicate 90 'a') ∧
        cellLen (grid_description (String.mk (List.replicate 91 'a'))) ≤ 90 ∧
        '…' ∈ (grid_description (String.mk (List.replicate 91 'a'))).data ∧
        cellLen (String.mk (List.replicate 46 '中')) = 92 ∧
        grid_description (String.mk (List.replicate 46 '中')) ≠
          String.mk (List.replicate 46 '中')) :=
  ⟨⟨by decide, by decide⟩,
    grid_truncation_width (String.mk (List.replicate 90 'a'))
      (String.mk (List.replicate 91 'a')) (by decide) (by decide)⟩
